import Mathlib

/-!
Shallow embedding of the smartprix slack-utils notification builders.

Two providers are modelled from the source: the Field-style builder
(`Slack`, from `src/unnamed/part_000`) and the Card-style builder
(`Teams`, from `src/teams.js`).  JavaScript strings are Lean `String`s;
a JS value that may be `undefined` is an `Option`; JS string truthiness
(`undefined` and `""` are falsy) is `optTruthy`/`jsFalsy`.  External
collaborators (config store, package metadata, logger, HTTP client,
environment variables, clock) are supplied as explicit environment
records, and the delivery pipeline is modelled as a function producing a
trace of effects (log calls and HTTP calls) so that containment and
test-mode short-circuiting are provable statements.
-/

/-- Truthiness of a possibly-undefined JS string: `undefined` and `""` are falsy. -/
def optTruthy : Option String → Bool
  | none => false
  | some s => s != ""

/-- Falsiness of a possibly-undefined JS string. -/
def jsFalsy (o : Option String) : Bool := !(optTruthy o)

/-- Template-literal rendering of a possibly-undefined JS string:
interpolating `undefined` produces the text "undefined". -/
def jsStr : Option String → String
  | none => "undefined"
  | some s => s

/-- The newline character. -/
def nl : Char := Char.ofNat 10

/-- Whitespace as recognised by JS `String.prototype.trim` (ASCII part). -/
def isJsSpace (c : Char) : Bool :=
  c = ' ' || c = nl || c = Char.ofNat 9 || c = Char.ofNat 13 || c = Char.ofNat 12 || c = Char.ofNat 11

/-- Model of JS `String.prototype.trim`: drop whitespace from both ends. -/
def jsTrim (s : String) : String :=
  String.mk (((s.data.dropWhile isJsSpace).reverse.dropWhile isJsSpace).reverse)

/-- Character classes used to split identifiers into words. -/
inductive CharKind where
  | upper
  | lower
  | digit
  | other
deriving DecidableEq

/-- Classify an ASCII character for word splitting. -/
def charKind (c : Char) : CharKind :=
  if c.isUpper then .upper else if c.isLower then .lower else if c.isDigit then .digit else .other

/-- One step of word splitting.  State: finished words (reversed) and the
current word (reversed).  Word boundaries: non-alphanumeric characters are
dropped, a case change lower-to-upper starts a word, letter/digit
transitions start a word, and a run of uppers followed by a lower splits
before its last upper. -/
def wordsStep : List (List Char) × List Char → Char → List (List Char) × List Char
  | (done, cur), c =>
    match charKind c, cur with
    | .other, [] => (done, [])
    | .other, w => (w.reverse :: done, [])
    | .digit, [] => (done, [c])
    | .digit, d :: ds => if charKind d = .digit then (done, c :: d :: ds) else ((d :: ds).reverse :: done, [c])
    | .lower, [] => (done, [c])
    | .lower, d :: ds =>
      match charKind d with
      | .lower => (done, c :: d :: ds)
      | .upper => if ds = [] then (done, c :: d :: ds) else (ds.reverse :: done, [c, d])
      | _ => ((d :: ds).reverse :: done, [c])
    | .upper, [] => (done, [c])
    | .upper, d :: ds =>
      if charKind d = .upper then (done, c :: d :: ds) else ((d :: ds).reverse :: done, [c])

/-- Split a string into words (camelCase, snake_case, kebab-case and space
separated runs, digits forming their own words). -/
def wordsOf (s : String) : List (List Char) :=
  let st := s.data.foldl wordsStep ([], [])
  (match st.2 with
   | [] => st.1
   | w => w.reverse :: st.1).reverse

/-- Capitalize the first character of a word. -/
def upperFirst : List Char → List Char
  | [] => []
  | c :: cs => c.toUpper :: cs

/-- Modelled from the spec: the external `lodash` `startCase` humanization
("snake/camel/kebab to Title Case with spaces") used by both providers'
`stats`; it splits the key into words and capitalizes each word's first
letter, joining with single spaces (ASCII subset). -/
def startCase (s : String) : String :=
  String.intercalate " " ((wordsOf s).map (fun w => String.mk (upperFirst w)))

/-- A JS value as passed to `stats` key/value maps.  A non-string object
carries the string image that `JSON.stringify` would give it (JSON
serialization itself is an external collaborator). -/
inductive JsVal where
  | undef
  | bool (b : Bool)
  | num (n : Int)
  | str (s : String)
  | obj (json : String)
deriving DecidableEq, BEq

/-- Stringification performed by `stats`: booleans, numbers and undefined
via `String(value)`, non-string objects via `String(JSON.stringify(value))`,
strings unchanged. -/
def jsStringify : JsVal → String
  | .undef => "undefined"
  | .bool true => "true"
  | .bool false => "false"
  | .num n => toString n
  | .str s => s
  | .obj j => j

/-- Uppercase hexadecimal digit for a value below 16. -/
def hexDigitChar (n : Nat) : Char :=
  if n < 10 then Char.ofNat (48 + n) else Char.ofNat (55 + n)

/-- Percent-encoding of one byte. -/
def percentByte (b : Nat) : List Char :=
  ['%', hexDigitChar (b / 16), hexDigitChar (b % 16)]

/-- UTF-8 bytes of a character, as numbers. -/
def utf8BytesOf (c : Char) : List Nat :=
  let n := c.toNat
  if n < 128 then [n]
  else if n < 2048 then [192 + n / 64, 128 + n % 64]
  else if n < 65536 then [224 + n / 4096, 128 + (n / 64) % 64, 128 + n % 64]
  else [240 + n / 262144, 128 + (n / 4096) % 64, 128 + (n / 64) % 64, 128 + n % 64]

/-- Characters that JS `encodeURIComponent` leaves unescaped:
letters, digits, and `- _ . ! ~ * ( )` plus the apostrophe (code 39). -/
def uriUnreserved (c : Char) : Bool :=
  c.isAlpha || c.isDigit || c = '-' || c = '_' || c = '.' || c = '!' || c = '~' ||
    c = '*' || c = Char.ofNat 39 || c = '(' || c = ')'

/-- Model of JS `encodeURIComponent`. -/
def encodeURIComponent (s : String) : String :=
  String.mk (s.data.foldr
    (fun c acc => (if uriUnreserved c then [c] else ((utf8BytesOf c).map percentByte).flatten) ++ acc) [])

/-- Model of `stack.replace(/ /g, "&nbsp;")`: every space becomes the
non-breaking-space entity. -/
def spacesToNbsp (s : String) : String :=
  String.mk ((s.data.map (fun c => if c = ' ' then "&nbsp;".data else [c])).flatten)

/-- Model of JS `String.prototype.replace` with a single-character string
pattern: remove only the first occurrence of the character. -/
def removeFirst (c : Char) : List Char → List Char
  | [] => []
  | x :: xs => if x = c then xs else x :: removeFirst c xs

/-- A JS `Error` object: the fields the providers read and write. -/
structure JsError where
  name : String
  message : String
  stack : String
deriving DecidableEq

/-- Package metadata, an external collaborator (`getPackageInfo`):
`bugsUrl` models `bugs && bugs.url`. -/
structure PackageInfo where
  name : String
  version : String
  bugsUrl : Option String
deriving DecidableEq

/-- Outcome of `JSON.parse(res.body)` followed by reading `.error`:
either the parse throws, or it yields an object whose `error` field is the
given string (`""` standing for an absent or falsy field).  The outcome is
supplied with the response because JSON parsing is external. -/
inductive ParseOutcome where
  | parseError (err : String)
  | parsed (errField : String)
deriving DecidableEq

/-- An HTTP response as seen by the transports. -/
structure HttpResp where
  statusCode : Nat
  body : String
  parse : ParseOutcome
deriving DecidableEq

/-- Outcome of `connect.fetch()`: a response, or a transport-level throw. -/
inductive FetchOutcome where
  | thrown (err : String)
  | resp (r : HttpResp)
deriving DecidableEq

/-- The footer suffix built from the process-manager environment variables:
present when `process.env.name` or `process.env.pm_id` is truthy, with the
id defaulting to `-1`. -/
def footerSuffix (pmName pmId : Option String) : String :=
  if optTruthy pmName || optTruthy pmId then
    "| " ++ jsStr pmName ++ " " ++ (if optTruthy pmId then jsStr pmId else "-1")
  else ""

/-- A field inside a Field-style attachment. -/
structure SlackField where
  title : String
  value : String
  short : Bool
deriving DecidableEq

/-- A Field-style action button. -/
structure SlackAction where
  type : String
  text : String
  url : String
  style : Option String
deriving DecidableEq

/-- A Field-style attachment (the fields this code reads or writes). -/
structure Attach where
  title : Option String := none
  pretext : Option String := none
  text : Option String := none
  color : Option String := none
  fallback : Option String := none
  fields : List SlackField := []
  actions : List SlackAction := []
  footer : Option String := none
  ts : Option Int := none
deriving DecidableEq

/-- The provider-specific extra props this library itself manipulates
(`username()` and `icon()`); arbitrary further caller-supplied keys are
out of the model. -/
structure ExtraProps where
  username : Option String := none
  icon_emoji : Option String := none
  icon_url : Option String := none
deriving DecidableEq

/-- The empty extra-props object. -/
def ExtraProps.empty : ExtraProps := {}

/-- Model of `Object.assign({}, a, b)`: per-key, a key defined in `b` wins. -/
def ExtraProps.merge (a b : ExtraProps) : ExtraProps :=
  { username := b.username <|> a.username
    icon_emoji := b.icon_emoji <|> a.icon_emoji
    icon_url := b.icon_url <|> a.icon_url }

/-- The `slack` configuration namespace (`cfg('slack', ...)`), flat:
token, webhook and default channel, `""` standing for unset. -/
structure SlackConf where
  token : String
  webhook : String
  channel : String
deriving DecidableEq

/-- The external world as seen by the Field-style provider: configuration,
the test-mode predicate `logCondition`, the static username, package
metadata, host/environment discovery, the clock, and the outcome the HTTP
client would produce on each transport. -/
structure SlackEnv where
  conf : SlackConf
  logCondition : Bool
  usernameStatic : String
  pkg : PackageInfo
  hostname : String
  nodeEnv : String
  pmName : Option String
  pmId : Option String
  tsNow : Int
  fetchToken : FetchOutcome
  fetchWebhook : FetchOutcome

/-- The static `username` getter: `this._username || 'slackbot'`. -/
def SlackEnv.username (env : SlackEnv) : String :=
  if env.usernameStatic != "" then env.usernameStatic else "slackbot"

/-- The Field-style builder state (class `Slack`). -/
structure Slack where
  _attachments : List Attach
  _errors : List JsError
  _actions : List SlackAction
  _extraProps : ExtraProps
  _text : Option String
  _channel : Option String
deriving DecidableEq

/-- Field-style `text(text)`. -/
def Slack.text (b : Slack) (t : String) : Slack := { b with _text := some t }

/-- Field-style `channel(channelName)`. -/
def Slack.channel (b : Slack) (c : String) : Slack := { b with _channel := some c }

/-- The Field-style constructor: start empty, then apply `channel`/`text`
when the options are truthy. -/
def Slack.make (text channel : Option String) : Slack :=
  let b : Slack := ⟨[], [], [], ExtraProps.empty, none, none⟩
  let b := if optTruthy channel then Slack.channel b (jsStr channel) else b
  if optTruthy text then Slack.text b (jsStr text) else b

/-- Dummy `color()`: the Field-style provider ignores colors at top level. -/
def Slack.color (b : Slack) (_c : String) : Slack := b

/-- Dummy `title()`: the Field-style provider ignores titles at top level. -/
def Slack.title (b : Slack) (_t : String) : Slack := b

/-- Field-style `summary(fallback)`: set the first attachment's fallback,
if any attachment exists. -/
def Slack.summary (b : Slack) (fallback : String) : Slack :=
  match b._attachments with
  | [] => b
  | a :: rest => { b with _attachments := { a with fallback := some fallback } :: rest }

/-- Field-style `username(name)`: stored in the extra props. -/
def Slack.username (b : Slack) (n : String) : Slack :=
  { b with _extraProps := { b._extraProps with username := some n } }

/-- Field-style `attachment(attachments)`: append (the single-or-array
argument is modelled as a list). -/
def Slack.attachment (b : Slack) (attachments : List Attach) : Slack :=
  { b with _attachments := b._attachments ++ attachments }

/-- Field-style `action(actions)`: append. -/
def Slack.action (b : Slack) (actions : List SlackAction) : Slack :=
  { b with _actions := b._actions ++ actions }

/-- Field-style `icon(linkOrEmoji)`: a leading colon means an emoji. -/
def Slack.icon (b : Slack) (linkOrEmoji : String) : Slack :=
  if linkOrEmoji.data.head? = some ':' then
    { b with _extraProps := { b._extraProps with icon_emoji := some linkOrEmoji } }
  else
    { b with _extraProps := { b._extraProps with icon_url := some linkOrEmoji } }

/-- Field-style `button(text, url, {style})`: push one button action. -/
def Slack.button (b : Slack) (text url style : String) : Slack :=
  { b with _actions := b._actions ++
      [⟨"button", text, url, if style != "" then some style else none⟩] }

/-- Options of the static `format` helper. -/
structure FormatOpts where
  code : Bool
  bold : Bool
  italics : Bool
  strikethrough : Bool

/-- The default options object of `format`: when no options are given,
bold is true. -/
def Slack.formatDefaultOpts : FormatOpts := ⟨false, true, false, false⟩

/-- Field-style `format`: wrap in code/bold/italics/strikethrough markers
in that order. -/
def Slack.format (txt : String) (o : FormatOpts) : String :=
  let txt := if o.code then "`" ++ txt ++ "`" else txt
  let txt := if o.bold then "*" ++ txt ++ "*" else txt
  let txt := if o.italics then "_" ++ txt ++ "_" else txt
  if o.strikethrough then "~" ++ txt ++ "~" else txt

/-- Field-style `formatUrl`. -/
def Slack.formatUrl (url text : String) : String := "<" ++ url ++ "|" ++ text ++ ">"

/-- One character of Field-style escaping. -/
def Slack.escapeChar (c : Char) : String :=
  if c = '<' then "&lt;" else if c = '>' then "&gt;" else if c = '&' then "&amp;"
  else String.singleton c

/-- Field-style `escapeText`: escape ampersand and angle brackets in a
single pass. -/
def Slack.escapeText (t : String) : String :=
  String.join (t.data.map Slack.escapeChar)

/-- The issue-creation URL built by the Field-style `error`. -/
def Slack.issueUrl (bugsUrl now version label titleOrMessage stack : String) : String :=
  bugsUrl ++ "/new?title=" ++ encodeURIComponent (label ++ titleOrMessage) ++
    "&body=" ++ encodeURIComponent
      ("Error encountered on " ++ now ++ "\n" ++ "App version: v" ++ version ++ "\n\n" ++
        "Full Stack: " ++ stack) ++
    "&labels=bug"

/-- The attachment built by the Field-style `error`: danger color, escaped
pretext and stack, and a create-issue button only when a bug-tracker URL
is configured. -/
def Slack.errAttachment (pkg : PackageInfo) (now : String) (err : JsError)
    (label title : String) : Attach :=
  let pretext := Slack.escapeText (Slack.format "Error" Slack.formatDefaultOpts ++ ": " ++ err.message)
  { pretext := some pretext
    text := some (Slack.escapeText err.stack)
    color := some "danger"
    fallback := some pretext
    actions :=
      if optTruthy pkg.bugsUrl then
        [⟨"button", "Create an issue for this error?",
          Slack.issueUrl (jsStr pkg.bugsUrl) now pkg.version
            ("[" ++ (if label != "" then label else err.name) ++ "] ")
            (if title != "" then title else err.message) err.stack,
          some "danger"⟩]
      else [] }

/-- Field-style `error(err, {label, title})`: record the error and append
the error attachment. -/
def Slack.error (b : Slack) (pkg : PackageInfo) (now : String) (err : JsError)
    (label title : String) : Slack :=
  let b := { b with _errors := b._errors ++ [err] }
  Slack.attachment b [Slack.errAttachment pkg now err label title]

/-- The fields built by Field-style `stats`: skip undefined values when
`ignoreUndefined`, humanize the trimmed key, stringify and trim the value,
and mark `short` from the trimmed value's length and the raw key's length. -/
def Slack.statsFields (ignoreUndefined : Bool) (keyValues : List (String × JsVal)) :
    List SlackField :=
  keyValues.filterMap (fun kv =>
    if ignoreUndefined && decide (kv.2 = JsVal.undef) then none
    else
      let value := jsTrim (jsStringify kv.2)
      some ⟨startCase (jsTrim kv.1), value,
        decide (value.length ≤ 30) && decide (kv.1.length ≤ 30)⟩)

/-- The attachment built by Field-style `stats` (the `extraProps` shallow
override option is not modelled; no claim concerns it). -/
def Slack.statsAttachment (title : String) (keyValues : List (String × JsVal))
    (ignoreUndefined : Bool) : Attach :=
  { color := some "#439FE0"
    fallback := some title
    title := some title
    fields := Slack.statsFields ignoreUndefined keyValues }

/-- Field-style `stats(title, keyValues, {ignoreUndefined})`. -/
def Slack.stats (b : Slack) (title : String) (keyValues : List (String × JsVal))
    (ignoreUndefined : Bool) : Slack :=
  Slack.attachment b [Slack.statsAttachment title keyValues ignoreUndefined]

/-- The default context attachment (`getDefaultAttachments` of the
Field-style module): hostname, node environment, footer and timestamp. -/
def Slack.defaultAttachments (env : SlackEnv) : List Attach :=
  [{ title := some "App Info:"
     fields := [⟨"Hostname", env.hostname, true⟩, ⟨"Node Environment", env.nodeEnv, true⟩]
     footer := some (env.pkg.name ++ " v" ++ env.pkg.version ++ " " ++
       footerSuffix env.pmName env.pmId)
     ts := some env.tsNow }]

/-- The assembled Field-style wire message. -/
structure SlackMessage where
  text : Option String
  channel : String
  username : String
  attachments : List Attach
  icon_emoji : Option String
  icon_url : Option String
deriving DecidableEq

/-- Options of the static `postMessage`. -/
structure SlackPostOpts where
  channel : Option String := none
  attachments : List Attach := []
  extraProps : ExtraProps := {}
  defaultAttachment : Bool := true
deriving DecidableEq

/-- Message assembly inside `postMessage`: channel defaulting, default
attachment concatenation, username resolution and extra-props override. -/
def Slack.buildMessage (env : SlackEnv) (text : Option String) (o : SlackPostOpts) :
    SlackMessage :=
  let channel := o.channel.getD env.conf.channel
  let finalAttachments :=
    if o.defaultAttachment then o.attachments ++ Slack.defaultAttachments env else o.attachments
  { text := text
    channel := channel
    username := (o.extraProps.username).getD env.username
    attachments := finalAttachments
    icon_emoji := o.extraProps.icon_emoji
    icon_url := o.extraProps.icon_url }

/-- Observable effects of a Field-style delivery: log calls (mirroring the
three logger call sites) and HTTP calls. -/
inductive SlackEffect where
  | logInfo (label : String) (message : SlackMessage)
  | logErrorParsed (message : SlackMessage) (errField : String)
  | logErrorStatus (message : SlackMessage) (status : Nat) (body : String)
  | logErrorCatch (message : SlackMessage) (status : Option Nat) (body : Option String) (err : String)
  | httpToken (message : SlackMessage)
  | httpWebhook (url : String) (message : SlackMessage)
deriving DecidableEq

/-- Token transport (`_postWithToken`): fetch, parse the body, log the
parsed body when it reports an error, and catch any throw, logging it with
the response status and body when a response was received.  The HTTP
status is never inspected.  (The serialization of `message.attachments`
into a JSON form field before posting is not separately modelled; the
message value is carried whole.) -/
def Slack.postWithToken (env : SlackEnv) (message : SlackMessage) : List SlackEffect :=
  match env.fetchToken with
  | .thrown e => [.httpToken message, .logErrorCatch message none none e]
  | .resp r =>
    match r.parse with
    | .parseError e => [.httpToken message, .logErrorCatch message (some r.statusCode) (some r.body) e]
    | .parsed errField =>
      if errField != "" then [.httpToken message, .logErrorParsed message errField]
      else [.httpToken message]

/-- Webhook transport (`_postWithWebhook`): fetch, log non-200 statuses
with the body, and catch any throw. -/
def Slack.postWithWebhook (env : SlackEnv) (message : SlackMessage) : List SlackEffect :=
  match env.fetchWebhook with
  | .thrown e => [.httpWebhook env.conf.webhook message, .logErrorCatch message none none e]
  | .resp r =>
    if r.statusCode != 200 then
      [.httpWebhook env.conf.webhook message, .logErrorStatus message r.statusCode r.body]
    else [.httpWebhook env.conf.webhook message]

/-- Static `postMessage`: assemble the message, short-circuit to an info
log in test mode, otherwise pick the webhook transport when a webhook is
configured and the token transport otherwise.  The `Except` layer carries
a synchronous throw; this provider never produces one. -/
def Slack.postMessage (env : SlackEnv) (text : Option String) (o : SlackPostOpts) :
    Except String (List SlackEffect) :=
  let message := Slack.buildMessage env text o
  if env.logCondition then .ok [.logInfo "Slack" message]
  else if env.conf.webhook != "" then .ok (Slack.postWithWebhook env message)
  else .ok (Slack.postWithToken env message)

/-- The builder mutation performed at the start of `send()`: when pending
actions exist, append an empty-titled attachment carrying them. -/
def Slack.afterActions (b : Slack) : Slack :=
  if b._actions.isEmpty then b
  else Slack.attachment b [{ title := some "", actions := b._actions }]

/-- Options of the instance `send`. -/
structure SendOpts where
  defaultAttachment : Bool := true
  extraProps : ExtraProps := {}
deriving DecidableEq

/-- The payload a Field-style `send()` call delivers (or logs in test
mode), as a function of the builder state it starts from. -/
def Slack.sendMessage (env : SlackEnv) (b : Slack) (o : SendOpts) : SlackMessage :=
  let b := Slack.afterActions b
  Slack.buildMessage env b._text
    { channel := b._channel
      attachments := b._attachments
      extraProps := b._extraProps.merge o.extraProps
      defaultAttachment := o.defaultAttachment }

/-- Field-style `send()`: apply the actions mutation to the builder, then
post.  Returns the builder as left behind by the call together with the
delivery result. -/
def Slack.send (env : SlackEnv) (b : Slack) (o : SendOpts) :
    Slack × Except String (List SlackEffect) :=
  let b := Slack.afterActions b
  (b, Slack.postMessage env b._text
    { channel := b._channel
      attachments := b._attachments
      extraProps := b._extraProps.merge o.extraProps
      defaultAttachment := o.defaultAttachment })

/-- The number of attachment blocks attributable to the caller at `send()`
time: explicitly added attachments, plus the actions block when the caller
added action buttons. -/
def Slack.callerBlocks (b : Slack) : Nat :=
  b._attachments.length + (if b._actions.isEmpty then 0 else 1)

/-- A fact inside a Card-style section. -/
structure TFact where
  name : String
  value : String
deriving DecidableEq

/-- A Card-style section (the fields this code reads or writes). -/
structure TSection where
  title : Option String := none
  text : Option String := none
  facts : List TFact := []
  activityTitle : Option String := none
  activitySubtitle : Option String := none
deriving DecidableEq

/-- A target of a Card-style OpenUri action. -/
structure UriTarget where
  os : String
  uri : String
deriving DecidableEq

/-- A Card-style action (`@type` is the `atType` field). -/
structure TeamsAction where
  atType : String
  name : String
  targets : List UriTarget
deriving DecidableEq

/-- The Card-style builder state (class `Teams`). -/
structure Teams where
  _themeColor : String
  _sections : List TSection
  _errors : List JsError
  _actions : List TeamsAction
  _summary : Option String
  _title : Option String
  _text : Option String
  _channel : Option String
deriving DecidableEq

/-- Number of copies of the break sequence emitted for a newline run:
for a run of length `n + 1`, `n` copies of three-spaces+newline+marker
followed by a final three-spaces+newline (the source's replacement loop). -/
def Teams.emitChars : Nat → List Char
  | 0 => []
  | n + 1 => (List.replicate n ("   \n&nbsp;".data)).flatten ++ "   \n".data

/-- Core of Card-style `escapeText`: scan the characters, counting the
pending newline run and emitting its replacement when the run ends. -/
def Teams.escAux : List Char → Nat → List Char
  | [], pending => Teams.emitChars pending
  | c :: cs, pending =>
    if c = nl then Teams.escAux cs (pending + 1)
    else Teams.emitChars pending ++ c :: Teams.escAux cs 0

/-- Card-style `escapeText`: falsy (empty) input is returned unchanged;
otherwise each maximal newline run is replaced as in `Teams.emitChars`. -/
def Teams.escapeText (s : String) : String :=
  if s.data = [] then s else String.mk (Teams.escAux s.data 0)

/-- The spec's formulation of a break-run replacement: a first break of
three spaces plus a newline, then for each further break of the run a
non-breaking-space marker followed by the break. -/
def Teams.claimBreakChars : Nat → List Char
  | 0 => []
  | n + 1 => "   \n".data ++ (List.replicate n ("&nbsp;   \n".data)).flatten

/-- Dummy `username()`: the Card-style provider has no per-message name. -/
def Teams.username (b : Teams) : Teams := b

/-- Dummy `icon()`: the Card-style provider has no per-message icon. -/
def Teams.icon (b : Teams) : Teams := b

/-- Card-style `channel(channel)`. -/
def Teams.channel (b : Teams) (c : String) : Teams := { b with _channel := some c }

/-- Card-style `summary(summary)`. -/
def Teams.summary (b : Teams) (s : String) : Teams := { b with _summary := some s }

/-- Card-style `color(color)`: strip a leading hash (JS `replace` with a
string pattern removes only the first occurrence). -/
def Teams.color (b : Teams) (c : String) : Teams :=
  { b with _themeColor := String.mk (removeFirst '#' c.data) }

/-- Card-style `title(title)`. -/
def Teams.title (b : Teams) (t : String) : Teams := { b with _title := some t }

/-- Card-style `text(text)`: newline escaping is applied eagerly. -/
def Teams.text (b : Teams) (t : String) : Teams :=
  { b with _text := some (Teams.escapeText t) }

/-- The Card-style constructor: blue theme color, then `channel`/`text`
when the options are truthy. -/
def Teams.make (text channel : Option String) : Teams :=
  let b : Teams := ⟨"439FE0", [], [], [], none, none, none, none⟩
  let b := if optTruthy channel then Teams.channel b (jsStr channel) else b
  if optTruthy text then Teams.text b (jsStr text) else b

/-- The per-section escaping done by Card-style `attachment`: a truthy
`text` field is newline-escaped. -/
def Teams.escSection (s : TSection) : TSection :=
  match s.text with
  | some t => if t != "" then { s with text := some (Teams.escapeText t) } else s
  | none => s

/-- Card-style `attachment(sections)`: escape each section's text and
append. -/
def Teams.attachment (b : Teams) (sections : List TSection) : Teams :=
  { b with _sections := b._sections ++ sections.map Teams.escSection }

/-- Card-style `action(actions)`: append. -/
def Teams.action (b : Teams) (actions : List TeamsAction) : Teams :=
  { b with _actions := b._actions ++ actions }

/-- Card-style `button(name, uri)`: one OpenUri action with a default-os
target. -/
def Teams.button (b : Teams) (name uri : String) : Teams :=
  Teams.action b [⟨"OpenUri", name, [⟨"default", uri⟩]⟩]

/-- The facts built by Card-style `stats`: skip undefined values when
`ignoreUndefined`, humanize the trimmed key, stringify, trim, and
newline-escape the value. -/
def Teams.statsFacts (ignoreUndefined : Bool) (keyValues : List (String × JsVal)) :
    List TFact :=
  keyValues.filterMap (fun kv =>
    if ignoreUndefined && decide (kv.2 = JsVal.undef) then none
    else some ⟨startCase (jsTrim kv.1), Teams.escapeText (jsTrim (jsStringify kv.2))⟩)

/-- The section built by Card-style `stats`. -/
def Teams.statsSection (title : String) (keyValues : List (String × JsVal))
    (ignoreUndefined : Bool) : TSection :=
  { title := some title, facts := Teams.statsFacts ignoreUndefined keyValues }

/-- Card-style `stats(title, keyValues, {ignoreUndefined})`. -/
def Teams.stats (b : Teams) (title : String) (keyValues : List (String × JsVal))
    (ignoreUndefined : Bool) : Teams :=
  Teams.attachment b [Teams.statsSection title keyValues ignoreUndefined]

/-- The issue-creation URL built by the Card-style `error` (a missing
bug-tracker URL interpolates as the text "undefined"). -/
def Teams.issueUri (bugsUrl : Option String) (now version label titleOrMessage stack : String) :
    String :=
  jsStr bugsUrl ++ "/new?title=" ++ encodeURIComponent (label ++ titleOrMessage) ++
    "&body=" ++ encodeURIComponent
      ("Error encountered on " ++ now ++ "\n" ++ "App version: v" ++ version ++ "\n\n" ++
        "Full Stack: " ++ stack) ++
    "&labels=bug"

/-- The create-issue action appended by the Card-style `error`; it is
built from the mutated (space-escaped) stack and is added whether or not a
bug-tracker URL is configured. -/
def Teams.issueAction (pkg : PackageInfo) (now : String) (err : JsError)
    (label title : String) : TeamsAction :=
  ⟨"OpenUri", "Create an issue for this error?",
    [⟨"default",
      Teams.issueUri pkg.bugsUrl now pkg.version
        ("[" ++ (if label != "" then label else err.name) ++ "] ")
        (if title != "" then title else err.message)
        (spacesToNbsp err.stack)⟩]⟩

/-- Card-style `error(err, {label, title})`: the argument's stack is
reassigned with spaces replaced by the non-breaking-space entity (and the
recorded error aliases that mutation), then the card's color, title, text
and a create-issue button are set from it.  No section is appended.
Returns the updated builder together with the mutated error object. -/
def Teams.error (b : Teams) (pkg : PackageInfo) (now : String) (err : JsError)
    (label title : String) : Teams × JsError :=
  let err := { err with stack := spacesToNbsp err.stack }
  let b := { b with _errors := b._errors ++ [err] }
  let b := Teams.color b "F00"
  let b := Teams.title b ("Error: " ++ err.message)
  let b := Teams.text b err.stack
  let b := Teams.button b "Create an issue for this error?"
    (Teams.issueUri pkg.bugsUrl now pkg.version
      ("[" ++ (if label != "" then label else err.name) ++ "] ")
      (if title != "" then title else err.message) err.stack)
  (b, err)

/-- The external world as seen by the Card-style provider: the per-channel
webhook configuration map (`""` standing for an absent key), the static
default channel, the test-mode predicate, package metadata, host and
environment discovery, the clock, and the HTTP outcome. -/
structure TeamsEnv where
  cfgTeams : String → String
  defaultChannelStatic : String
  logCondition : Bool
  pkg : PackageInfo
  hostname : String
  nodeEnv : String
  pmName : Option String
  pmId : Option String
  now : String
  fetch : FetchOutcome

/-- The static `defaultChannel` getter: `this._defaultChannel || 'default'`. -/
def TeamsEnv.defaultChannel (env : TeamsEnv) : String :=
  if env.defaultChannelStatic != "" then env.defaultChannelStatic else "default"

/-- Webhook resolution (`getTeamsWebhookUrl`): default the channel when it
is undefined, append the default webhook name when the channel has no dot,
and look the dotted path up in configuration. -/
def Teams.getTeamsWebhookUrl (env : TeamsEnv) (channel : Option String) : String :=
  let c := channel.getD env.defaultChannel
  let c := if c.contains '.' then c else c ++ ".default"
  env.cfgTeams ("teams." ++ c)

/-- The default context section (`getDefaultAttachments` of the Card-style
module). -/
def Teams.defaultAttachments (env : TeamsEnv) : List TSection :=
  [{ activityTitle := some "App Info:"
     activitySubtitle := some (env.pkg.name ++ " v" ++ env.pkg.version ++ " " ++
       footerSuffix env.pmName env.pmId ++ " | " ++ env.now)
     facts := [⟨"Hostname", env.hostname⟩, ⟨"Node Environment", env.nodeEnv⟩] }]

/-- The assembled Card-style wire message (a MessageCard). -/
structure TeamsMessage where
  summary : Option String
  themeColor : String
  title : Option String
  text : Option String
  sections : List TSection
  potentialAction : List TeamsAction
deriving DecidableEq

/-- Observable effects of a Card-style delivery. -/
inductive TeamsEffect where
  | logInfo (label : String) (message : TeamsMessage)
  | logErrorStatus (message : TeamsMessage) (status : Nat) (body : String)
  | logErrorCatch (message : TeamsMessage) (err : String)
  | httpPost (url : String) (message : TeamsMessage)
deriving DecidableEq

/-- The synchronous throws of the Card-style pipeline, with their JS
error messages. -/
inductive TeamsErr where
  | summaryRequired
  | noWebhook (channel : Option String)
deriving DecidableEq

/-- The JS `Error.message` of each Card-style throw. -/
def TeamsErr.message : TeamsErr → String
  | .summaryRequired => "Either summary or text is required"
  | .noWebhook channel => "No webhook url for channel: \"" ++ jsStr channel ++ "\""

/-- The MessageCard a `send()` call builds from the accumulated state. -/
def Teams.cardMessage (b : Teams) : TeamsMessage :=
  ⟨b._summary, b._themeColor, b._title, b._text, b._sections, b._actions⟩

/-- The copy-and-extend step of the static `postMessage`: copy the message
and concatenate the default context section when requested. -/
def Teams.withDefaults (env : TeamsEnv) (m : TeamsMessage) (defaultAttachment : Bool) :
    TeamsMessage :=
  { m with sections := m.sections ++ (if defaultAttachment then Teams.defaultAttachments env else []) }

/-- Modelled from the spec: `Notify._postMessage`, the Card-style raw
webhook transport, is not under src/; per the spec it posts the whole
payload as a JSON body and contains every network failure (non-2xx status
or transport exception), logging it and never raising. -/
def Teams.postMessageHttp (env : TeamsEnv) (url : String) (m : TeamsMessage) :
    List TeamsEffect :=
  match env.fetch with
  | .thrown e => [.httpPost url m, .logErrorCatch m e]
  | .resp r =>
    if 200 ≤ r.statusCode && r.statusCode < 300 then [.httpPost url m]
    else [.httpPost url m, .logErrorStatus m r.statusCode r.body]

/-- Static Card-style `postMessage`: copy and extend the message,
short-circuit to an info log in test mode, then resolve the webhook and
throw when none resolves. -/
def Teams.postMessage (env : TeamsEnv) (m : TeamsMessage) (channel : Option String)
    (defaultAttachment : Bool) : Except TeamsErr (List TeamsEffect) :=
  let m := Teams.withDefaults env m defaultAttachment
  if env.logCondition then .ok [.logInfo "Teams" m]
  else
    let webhookUrl := Teams.getTeamsWebhookUrl env channel
    if webhookUrl = "" then .error (.noWebhook channel)
    else .ok (Teams.postMessageHttp env webhookUrl m)

/-- The payload a Card-style `send()` call delivers (or logs in test
mode), as a function of the builder state. -/
def Teams.sentMessage (env : TeamsEnv) (b : Teams) (defaultAttachment : Bool) :
    TeamsMessage :=
  Teams.withDefaults env (Teams.cardMessage b) defaultAttachment

/-- Card-style `send()`: throw when neither summary nor text is truthy,
otherwise post the card.  The builder is returned unchanged (the source
mutates nothing here). -/
def Teams.send (env : TeamsEnv) (b : Teams) (defaultAttachment : Bool) :
    Teams × Except TeamsErr (List TeamsEffect) :=
  if jsFalsy b._summary && jsFalsy b._text then (b, .error .summaryRequired)
  else (b, Teams.postMessage env (Teams.cardMessage b) b._channel defaultAttachment)

/-! Concrete fixtures used by witnesses and counterexamples. -/

/-- Package metadata with no bug-tracker URL configured. -/
def pkgNoBugs : PackageInfo := ⟨"app", "1.0.0", none⟩

/-- A concrete error object. -/
def errSample : JsError := ⟨"TypeFail", "boom", "at line one"⟩

/-- A Field-style environment in test mode. -/
def envTestMode : SlackEnv :=
  ⟨⟨"", "", ""⟩, true, "", pkgNoBugs, "host1", "test", none, none, 0,
    .resp ⟨200, "ok", .parsed ""⟩, .resp ⟨200, "ok", .parsed ""⟩⟩

/-- A Field-style environment outside test mode, token transport, where
the server answers 500 with a body that parses without an error field. -/
def envSilent500 : SlackEnv :=
  ⟨⟨"tok", "", ""⟩, false, "", pkgNoBugs, "host1", "production", none, none, 0,
    .resp ⟨500, "server error", .parsed ""⟩, .resp ⟨200, "ok", .parsed ""⟩⟩

/-- A Field-style environment outside test mode, webhook transport, where
the server answers 500. -/
def envWebhook500 : SlackEnv :=
  ⟨⟨"", "https://wh.example", ""⟩, false, "", pkgNoBugs, "host1", "production", none, none, 0,
    .resp ⟨200, "ok", .parsed ""⟩, .resp ⟨500, "bad", .parsed ""⟩⟩

/-- A Field-style environment outside test mode, token transport, where
the response body reports an in-band error. -/
def envTokenErrField : SlackEnv :=
  ⟨⟨"tok", "", ""⟩, false, "", pkgNoBugs, "host1", "production", none, none, 0,
    .resp ⟨200, "body", .parsed "channel_not_found"⟩, .resp ⟨200, "ok", .parsed ""⟩⟩

/-- Default `send()` options. -/
def sendDefaults : SendOpts := ⟨true, ExtraProps.empty⟩

/-- Default `postMessage` options. -/
def slackDefaultOpts : SlackPostOpts := {}

/-- A builder holding one pending action button. -/
def builderWithAction : Slack := Slack.button (Slack.make none none) "t" "u" ""

/-- A Card-style environment in test mode with no webhooks configured. -/
def teamsEnvTest : TeamsEnv :=
  ⟨fun _ => "", "", true, pkgNoBugs, "host1", "test", none, none, "2026-01-01",
    .resp ⟨200, "ok", .parsed ""⟩⟩

/-- A Card-style environment outside test mode with no webhooks
configured. -/
def teamsEnvLive : TeamsEnv :=
  ⟨fun _ => "", "", false, pkgNoBugs, "host1", "production", none, none, "2026-01-01",
    .resp ⟨200, "ok", .parsed ""⟩⟩

/-- A Card-style builder whose text is set. -/
def tbHi : Teams := Teams.text (Teams.make none none) "hi"

/-- A raw stats key of 31 characters whose trimmed, humanized form is the
single character "A". -/
def longSpacedKey : String := "a                              "

/-! Helper lemmas. -/


/-- A `filterMap` whose function is a guard followed by a build equals a
`filter` followed by a `map`. -/
theorem filterMap_guard_map {α β : Type} (p : α → Bool) (f : α → β) (l : List α) :
    l.filterMap (fun a => if p a then none else some (f a)) =
      (l.filter (fun a => !(p a))).map f := by
  induction l with
  | nil => rfl
  | cons a tl ih =>
    cases h : p a <;> simp [List.filterMap_cons, List.filter_cons, h, ih]

/-- Shape of the Field-style stats fields: a filter keeping the defined
entries followed by a map building each field. -/
theorem statsFields_eq (iu : Bool) (kvs : List (String × JsVal)) :
    Slack.statsFields iu kvs =
      (kvs.filter (fun kv => !(iu && decide (kv.2 = JsVal.undef)))).map
        (fun kv => ⟨startCase (jsTrim kv.1), jsTrim (jsStringify kv.2),
          decide ((jsTrim (jsStringify kv.2)).length ≤ 30) && decide (kv.1.length ≤ 30)⟩) :=
  filterMap_guard_map (fun kv : String × JsVal => iu && decide (kv.2 = JsVal.undef))
    (fun kv : String × JsVal => (⟨startCase (jsTrim kv.1), jsTrim (jsStringify kv.2),
      decide ((jsTrim (jsStringify kv.2)).length ≤ 30) && decide (kv.1.length ≤ 30)⟩ : SlackField)) kvs

/-- Shape of the Card-style stats facts. -/
theorem statsFacts_eq (iu : Bool) (kvs : List (String × JsVal)) :
    Teams.statsFacts iu kvs =
      (kvs.filter (fun kv => !(iu && decide (kv.2 = JsVal.undef)))).map
        (fun kv => ⟨startCase (jsTrim kv.1), Teams.escapeText (jsTrim (jsStringify kv.2))⟩) :=
  filterMap_guard_map (fun kv : String × JsVal => iu && decide (kv.2 = JsVal.undef))
    (fun kv : String × JsVal => (⟨startCase (jsTrim kv.1),
      Teams.escapeText (jsTrim (jsStringify kv.2))⟩ : TFact)) kvs

/-- The escape scanner passes a newline-free prefix through unchanged. -/
theorem escAux_noNl_front (xs rest : List Char) (h : nl ∉ xs) :
    Teams.escAux (xs ++ rest) 0 = xs ++ Teams.escAux rest 0 := by
  induction xs with
  | nil => rfl
  | cons c tl ih =>
    have hc : c ≠ nl := fun hceq => h (hceq ▸ List.mem_cons_self c tl)
    have htl : nl ∉ tl := fun hm => h (List.mem_cons_of_mem c hm)
    simp [Teams.escAux, hc, Teams.emitChars, ih htl]

/-- The escape scanner turns a leading newline run into pending count. -/
theorem escAux_replicate (k : Nat) (ys : List Char) (n : Nat) :
    Teams.escAux (List.replicate k nl ++ ys) n = Teams.escAux ys (n + k) := by
  induction k generalizing n with
  | zero => simp
  | succ k ih =>
    have hadd : n + 1 + k = n + (k + 1) := by omega
    simp [List.replicate_succ, Teams.escAux, ih, hadd]

/-- When the rest does not begin with a newline, a pending run is flushed
as its emitted break sequence. -/
theorem escAux_flush (ys : List Char) (m : Nat)
    (h : ∀ c, ys.head? = some c → c ≠ nl) :
    Teams.escAux ys m = Teams.emitChars m ++ Teams.escAux ys 0 := by
  cases ys with
  | nil => simp [Teams.escAux, Teams.emitChars]
  | cons c cs =>
    have hc : c ≠ nl := h c rfl
    simp [Teams.escAux, hc, Teams.emitChars]

/-- Rotation identity behind the equality of the source's and the spec's
break-run formulations. -/
theorem replicate_join_rot (k : Nat) (A B : List Char) :
    (List.replicate k (A ++ B)).flatten ++ A = A ++ (List.replicate k (B ++ A)).flatten := by
  induction k with
  | zero => simp
  | succ k ih => simp [List.replicate_succ, List.append_assoc, ih]

/-- The source's emitted break run equals the spec's formulation: a first
break, then marker-prefixed breaks. -/
theorem emitChars_eq_claimBreakChars (n : Nat) :
    Teams.emitChars (n + 1) = Teams.claimBreakChars (n + 1) := by
  show (List.replicate n ("   \n&nbsp;".data)).flatten ++ "   \n".data =
    "   \n".data ++ (List.replicate n ("&nbsp;   \n".data)).flatten
  have h1 : "   \n&nbsp;".data = "   \n".data ++ "&nbsp;".data := by decide
  have h2 : "&nbsp;   \n".data = "&nbsp;".data ++ "   \n".data := by decide
  rw [h1, h2]
  exact replicate_join_rot n ("   \n".data) ("&nbsp;".data)

/-- C1 counterexample: the token transport never inspects the HTTP status,
so a 500 response whose body parses without an error field produces a
trace with the HTTP call and no error log at all, refuting the claim that
every non-2xx network failure is caught and logged. -/
theorem slack_token_silent_non2xx_cex :
    envSilent500.fetchToken = FetchOutcome.resp ⟨500, "server error", ParseOutcome.parsed ""⟩
    ∧ Slack.postMessage envSilent500 (some "hi") slackDefaultOpts =
        .ok [SlackEffect.httpToken (Slack.buildMessage envSilent500 (some "hi") slackDefaultOpts)] :=
  ⟨rfl, rfl⟩

/-- C1 amended: every transport-level exception and body-parse failure is
caught and logged (with the message, and the response status/body when a
response was received), the webhook transport logs every non-200 status
with the message, status and body, the token transport logs every
provider-reported in-band body error with the message and that error, and
`send()` always resolves without raising -- but a non-2xx token response
whose body parses cleanly without an error field is not logged. -/
theorem slack_network_failure_containment_amended
    (env : SlackEnv) (b : Slack) (o : SendOpts) (m : SlackMessage) (r : HttpResp) (e ef : String) :
    (∃ effs, (Slack.send env b o).2 = .ok effs)
    ∧ (env.fetchWebhook = .resp r → r.statusCode ≠ 200 →
        Slack.postWithWebhook env m =
          [.httpWebhook env.conf.webhook m, .logErrorStatus m r.statusCode r.body])
    ∧ (env.fetchWebhook = .thrown e →
        Slack.postWithWebhook env m = [.httpWebhook env.conf.webhook m, .logErrorCatch m none none e])
    ∧ (env.fetchToken = .resp r → r.parse = .parsed ef → ef ≠ "" →
        Slack.postWithToken env m = [.httpToken m, .logErrorParsed m ef])
    ∧ (env.fetchToken = .resp r → r.parse = .parseError e →
        Slack.postWithToken env m = [.httpToken m, .logErrorCatch m (some r.statusCode) (some r.body) e])
    ∧ (env.fetchToken = .thrown e →
        Slack.postWithToken env m = [.httpToken m, .logErrorCatch m none none e]) := by
  refine ⟨?_, ?_, ?_, ?_, ?_, ?_⟩
  · unfold Slack.send Slack.postMessage
    by_cases hl : env.logCondition <;> by_cases hw : (env.conf.webhook != "") = true <;>
      simp [hl, hw]
  · intro h1 h2
    simp [Slack.postWithWebhook, h1, h2, bne_iff_ne]
  · intro h1
    simp [Slack.postWithWebhook, h1]
  · intro h1 h2 h3
    simp [Slack.postWithToken, h1, h2, h3, bne_iff_ne]
  · intro h1 h2
    simp [Slack.postWithToken, h1, h2]
  · intro h1
    simp [Slack.postWithToken, h1]

/-- C1 amended witness: the webhook 500 and token in-band error cases at concrete inputs. -/
theorem slack_network_failure_containment_amended_witness :
    Slack.postWithWebhook envWebhook500 (Slack.buildMessage envWebhook500 (some "x") slackDefaultOpts) =
      [.httpWebhook "https://wh.example" (Slack.buildMessage envWebhook500 (some "x") slackDefaultOpts),
       .logErrorStatus (Slack.buildMessage envWebhook500 (some "x") slackDefaultOpts) 500 "bad"]
    ∧ Slack.postWithToken envTokenErrField (Slack.buildMessage envTokenErrField (some "x") slackDefaultOpts) =
      [.httpToken (Slack.buildMessage envTokenErrField (some "x") slackDefaultOpts),
       .logErrorParsed (Slack.buildMessage envTokenErrField (some "x") slackDefaultOpts) "channel_not_found"] := by
  constructor
  · exact (slack_network_failure_containment_amended envWebhook500 (Slack.make none none)
      sendDefaults (Slack.buildMessage envWebhook500 (some "x") slackDefaultOpts)
      ⟨500, "bad", .parsed ""⟩ "" "").2.1 rfl (by decide)
  · exact (slack_network_failure_containment_amended envTokenErrField (Slack.make none none)
      sendDefaults (Slack.buildMessage envTokenErrField (some "x") slackDefaultOpts)
      ⟨200, "body", .parsed "channel_not_found"⟩ "" "channel_not_found").2.2.2.1 rfl rfl (by decide)

/-- C2 confirmed: whenever `logCondition` is true, `postMessage` and
`send()` for both providers log the fully assembled message at info level
with the provider label and return ok, producing no HTTP effect (for
Card-style `send`, for every message passing the summary/text validation). -/
theorem test_mode_logs_and_skips_network
    (env : SlackEnv) (text : Option String) (o : SlackPostOpts) (b : Slack) (so : SendOpts)
    (tenv : TeamsEnv) (m : TeamsMessage) (chan : Option String) (da : Bool) (tb : Teams) :
    (env.logCondition = true →
      Slack.postMessage env text o = .ok [.logInfo "Slack" (Slack.buildMessage env text o)])
    ∧ (env.logCondition = true →
      (Slack.send env b so).2 = .ok [.logInfo "Slack" (Slack.sendMessage env b so)])
    ∧ (tenv.logCondition = true →
      Teams.postMessage tenv m chan da = .ok [.logInfo "Teams" (Teams.withDefaults tenv m da)])
    ∧ (tenv.logCondition = true → (jsFalsy tb._summary && jsFalsy tb._text) = false →
      (Teams.send tenv tb da).2 = .ok [.logInfo "Teams" (Teams.sentMessage tenv tb da)]) := by
  refine ⟨?_, ?_, ?_, ?_⟩
  · intro h; simp [Slack.postMessage, h]
  · intro h; simp [Slack.send, Slack.postMessage, Slack.sendMessage, h]
  · intro h; simp [Teams.postMessage, h]
  · intro h hv; simp [Teams.send, hv, Teams.postMessage, h, Teams.sentMessage]

/-- C2 witness: test-mode short-circuit evaluated at concrete environments. -/
theorem test_mode_logs_and_skips_network_witness :
    Slack.postMessage envTestMode (some "hi") slackDefaultOpts =
      .ok [.logInfo "Slack" (Slack.buildMessage envTestMode (some "hi") slackDefaultOpts)]
    ∧ (Teams.send teamsEnvTest tbHi true).2 =
      .ok [.logInfo "Teams" (Teams.sentMessage teamsEnvTest tbHi true)] := by
  constructor
  · exact (test_mode_logs_and_skips_network envTestMode (some "hi") slackDefaultOpts
      (Slack.make none none) sendDefaults teamsEnvTest (Teams.cardMessage tbHi) none true tbHi).1 rfl
  · exact (test_mode_logs_and_skips_network envTestMode (some "hi") slackDefaultOpts
      (Slack.make none none) sendDefaults teamsEnvTest (Teams.cardMessage tbHi) none true tbHi).2.2.2
      rfl (by decide)

/-- C3 counterexample: with no bug-tracker URL configured, the Card-style
`error` still appends a create-issue action (refuting "iff a bug-tracker
URL is configured") and appends zero sections (refuting "exactly one
attachment/section"). -/
theorem teams_error_no_section_button_cex :
    pkgNoBugs.bugsUrl = none
    ∧ ((Teams.error (Teams.make none none) pkgNoBugs "2026-01-01" errSample "" "").1)._sections.length = 0
    ∧ ((Teams.error (Teams.make none none) pkgNoBugs "2026-01-01" errSample "" "").1)._actions.length = 1 :=
  ⟨rfl, rfl, rfl⟩

/-- C3 amended: both providers record the error; the Field-style `error`
appends exactly one attachment, with the danger color, body text equal to
the escaped `err.stack`, and a create-issue action present iff a
bug-tracker URL is configured; the Card-style `error` appends no section
at all -- instead it sets the card's theme color to `F00` and its text to
the escaped (space-to-nbsp) stack, and always appends the create-issue
button, whether or not a bug-tracker URL is configured. -/
theorem error_builds_error_block_amended (b : Slack) (tb : Teams) (pkg : PackageInfo)
    (now : String) (err : JsError) (label title : String) :
    Slack.error b pkg now err label title =
      { b with _errors := b._errors ++ [err],
               _attachments := b._attachments ++ [Slack.errAttachment pkg now err label title] }
    ∧ (Slack.errAttachment pkg now err label title).color = some "danger"
    ∧ (Slack.errAttachment pkg now err label title).text = some (Slack.escapeText err.stack)
    ∧ ((Slack.errAttachment pkg now err label title).actions ≠ [] ↔ optTruthy pkg.bugsUrl = true)
    ∧ (Teams.error tb pkg now err label title).1._sections = tb._sections
    ∧ (Teams.error tb pkg now err label title).1._themeColor = "F00"
    ∧ (Teams.error tb pkg now err label title).1._text =
        some (Teams.escapeText (spacesToNbsp err.stack))
    ∧ (Teams.error tb pkg now err label title).1._actions =
        tb._actions ++ [Teams.issueAction pkg now err label title]
    ∧ (Teams.error tb pkg now err label title).1._errors =
        tb._errors ++ [{ err with stack := spacesToNbsp err.stack }] := by
  refine ⟨rfl, rfl, rfl, ?_, rfl, rfl, rfl, rfl, rfl⟩
  cases hb : optTruthy pkg.bugsUrl <;> simp [Slack.errAttachment, hb]

/-- C4 counterexample: a builder with one pending action button gains an
attachment during `send()` (its attachment list grows from 0 to 1), and
two consecutive `send()` calls with the same options deliver payloads of 2
then 3 attachments, refuting the claim that the builder state is unchanged
and consecutive payloads identical. -/
theorem slack_send_actions_mutation_cex :
    builderWithAction._attachments.length = 0
    ∧ ((Slack.send envTestMode builderWithAction sendDefaults).1)._attachments.length = 1
    ∧ (Slack.sendMessage envTestMode builderWithAction sendDefaults).attachments.length = 2
    ∧ (Slack.sendMessage envTestMode ((Slack.send envTestMode builderWithAction sendDefaults).1)
        sendDefaults).attachments.length = 3 :=
  ⟨rfl, rfl, rfl, rfl⟩

/-- C4 amended: Card-style `send()` never mutates the builder; Field-style
`send()` leaves the builder unchanged (and consecutive payloads identical)
exactly when no pending actions exist, but when actions are pending it
appends the actions attachment to the builder itself, growing its
attachment list by one on every call (the pending actions remain). -/
theorem send_builder_frame_amended (env : SlackEnv) (b : Slack) (o : SendOpts)
    (tenv : TeamsEnv) (tb : Teams) (da : Bool) :
    (b._actions = [] →
      (Slack.send env b o).1 = b ∧
      Slack.sendMessage env (Slack.send env b o).1 o = Slack.sendMessage env b o)
    ∧ (b._actions ≠ [] →
      ((Slack.send env b o).1)._attachments.length = b._attachments.length + 1 ∧
      ((Slack.send env b o).1)._actions = b._actions)
    ∧ (Teams.send tenv tb da).1 = tb := by
  refine ⟨?_, ?_, ?_⟩
  · intro h
    have h1 : (Slack.send env b o).1 = b := by
      simp [Slack.send, Slack.afterActions, h]
    exact ⟨h1, by rw [h1]⟩
  · intro h
    cases hb : b._actions with
    | nil => exact absurd hb h
    | cons a tl =>
      constructor
      · simp [Slack.send, Slack.afterActions, Slack.attachment, hb]
      · simp [Slack.send, Slack.afterActions, Slack.attachment, hb]
  · by_cases hc : (jsFalsy tb._summary && jsFalsy tb._text) = true <;> simp [Teams.send, hc]

/-- C4 amended witness: both the action-free and pending-action cases at concrete inputs. -/
theorem send_builder_frame_amended_witness :
    (Slack.send envTestMode (Slack.make none none) sendDefaults).1 = Slack.make none none
    ∧ ((Slack.send envTestMode builderWithAction sendDefaults).1)._attachments.length =
        builderWithAction._attachments.length + 1 := by
  constructor
  · exact ((send_builder_frame_amended envTestMode (Slack.make none none) sendDefaults
      teamsEnvTest (Teams.make none none) true).1 rfl).1
  · exact ((send_builder_frame_amended envTestMode builderWithAction sendDefaults
      teamsEnvTest (Teams.make none none) true).2.1 (by decide)).1

/-- C5 confirmed: Card-style `send()` raises the summary/text validation
error exactly when neither summary nor text is truthy on the builder, and,
outside test mode, the Card-style delivery raises (the no-webhook
configuration error, its only other throw) exactly when no webhook URL
resolves for the requested channel. -/
theorem teams_send_validation_and_webhook_errors (env : TeamsEnv) (b : Teams) (da : Bool) :
    ((Teams.send env b da).2 = .error .summaryRequired ↔
      (jsFalsy b._summary && jsFalsy b._text) = true)
    ∧ (∀ (m : TeamsMessage) (chan : Option String) (da2 : Bool), env.logCondition = false →
        ((∃ e, Teams.postMessage env m chan da2 = .error e) ↔
          Teams.getTeamsWebhookUrl env chan = "")) := by
  constructor
  · cases hc : (jsFalsy b._summary && jsFalsy b._text) with
    | true => simp [Teams.send, hc]
    | false =>
      simp only [Teams.send, hc, Bool.false_eq_true, if_false]
      constructor
      · intro h
        exfalso
        unfold Teams.postMessage at h
        cases hl : env.logCondition
        · simp only [hl, Bool.false_eq_true, if_false] at h
          by_cases hw : Teams.getTeamsWebhookUrl env b._channel = ""
          · simp [hw] at h
          · simp [hw] at h
        · simp [hl] at h
      · intro h
        exact absurd h (by simp)
  · intro m chan da2 hl
    constructor
    · rintro ⟨e, he⟩
      unfold Teams.postMessage at he
      simp only [hl, Bool.false_eq_true, if_false] at he
      by_cases hw : Teams.getTeamsWebhookUrl env chan = ""
      · exact hw
      · simp [hw] at he
    · intro hw
      exact ⟨.noWebhook chan, by simp [Teams.postMessage, hl, hw]⟩

/-- C5 witness: the empty builder and an unconfigured channel at concrete inputs. -/
theorem teams_send_validation_and_webhook_errors_witness :
    (Teams.send teamsEnvLive (Teams.make none none) true).2 = .error .summaryRequired
    ∧ (∃ e, Teams.postMessage teamsEnvLive (Teams.cardMessage tbHi) none true = .error e) := by
  constructor
  · exact (teams_send_validation_and_webhook_errors teamsEnvLive (Teams.make none none) true).1.mpr rfl
  · exact ((teams_send_validation_and_webhook_errors teamsEnvLive (Teams.make none none) true).2
      (Teams.cardMessage tbHi) none true rfl).mpr rfl

/-- C6 confirmed: the delivered payload's attachment/section count equals
the number of blocks the caller added (attachments plus the actions block
for Field-style, sections for Card-style) plus exactly one when
`defaultAttachment` is true and plus zero when it is false. -/
theorem default_attachment_count_exact (env : SlackEnv) (b : Slack) (o : SendOpts)
    (tenv : TeamsEnv) (tb : Teams) (da : Bool) :
    (Slack.sendMessage env b o).attachments.length =
      Slack.callerBlocks b + (if o.defaultAttachment then 1 else 0)
    ∧ (Teams.sentMessage tenv tb da).sections.length =
      tb._sections.length + (if da then 1 else 0) := by
  constructor
  · by_cases ha : b._actions.isEmpty <;> by_cases hd : o.defaultAttachment <;>
      simp [Slack.sendMessage, Slack.buildMessage, Slack.afterActions, Slack.attachment,
        Slack.defaultAttachments, Slack.callerBlocks, ha, hd]
  · by_cases hd : da <;>
      simp [Teams.sentMessage, Teams.withDefaults, Teams.cardMessage, Teams.defaultAttachments, hd]

/-- C7 counterexample: the Card-style `stats` additionally newline-escapes
the value, so for the value "a\nb" the delivered fact value is the escaped
break sequence, not the trimmed stringification of the input, refuting the
claim's value clause for the Card-style provider. -/
theorem teams_stats_value_escaping_cex :
    ((Teams.stats (Teams.make none none) "t" [("k", JsVal.str "a\nb")] true)._sections.map
        (fun s => s.facts)) = [[⟨"K", "a   \nb"⟩]]
    ∧ jsTrim (jsStringify (JsVal.str "a\nb")) = "a\nb"
    ∧ ("a   \nb" : String) ≠ "a\nb" := by
  refine ⟨rfl, rfl, by decide⟩

/-- C7 amended: each provider's `stats` appends exactly one
attachment/section; every key whose value is defined yields exactly one
field/fact whose name is the trimmed key humanized to Title Case, with the
trimmed stringification as the value -- used as-is by Field-style, and
additionally passed through newline escaping by Card-style; undefined
values are skipped when `ignoreUndefined`; and N entries with no undefined
values yield exactly N fields/facts. -/
theorem stats_fields_shape_amended (b : Slack) (tb : Teams) (title : String)
    (kvs : List (String × JsVal)) (iu : Bool) :
    (Slack.stats b title kvs iu)._attachments =
      b._attachments ++ [Slack.statsAttachment title kvs iu]
    ∧ Slack.statsFields iu kvs =
      (kvs.filter (fun kv => !(iu && decide (kv.2 = JsVal.undef)))).map
        (fun kv => ⟨startCase (jsTrim kv.1), jsTrim (jsStringify kv.2),
          decide ((jsTrim (jsStringify kv.2)).length ≤ 30) && decide (kv.1.length ≤ 30)⟩)
    ∧ (Teams.stats tb title kvs iu)._sections =
      tb._sections ++ [Teams.statsSection title kvs iu]
    ∧ Teams.statsFacts iu kvs =
      (kvs.filter (fun kv => !(iu && decide (kv.2 = JsVal.undef)))).map
        (fun kv => ⟨startCase (jsTrim kv.1), Teams.escapeText (jsTrim (jsStringify kv.2))⟩)
    ∧ ((∀ kv ∈ kvs, kv.2 ≠ JsVal.undef) →
        (Slack.statsFields iu kvs).length = kvs.length ∧
        (Teams.statsFacts iu kvs).length = kvs.length) := by
  refine ⟨rfl, statsFields_eq iu kvs, rfl, statsFacts_eq iu kvs, ?_⟩
  intro h
  have hfil : kvs.filter (fun kv => !(iu && decide (kv.2 = JsVal.undef))) = kvs :=
    List.filter_eq_self.mpr (fun kv hkv => by simp [h kv hkv])
  constructor
  · rw [statsFields_eq, hfil, List.length_map]
  · rw [statsFacts_eq, hfil, List.length_map]

/-- C7 amended witness: the length clause applied at a one-entry map. -/
theorem stats_fields_shape_amended_witness :
    (Slack.statsFields true [("k", JsVal.str "v")]).length = 1
    ∧ (Teams.statsFacts true [("k", JsVal.str "v")]).length = 1 := by
  exact (stats_fields_shape_amended (Slack.make none none) (Teams.make none none) "t"
    [("k", JsVal.str "v")] true).2.2.2.2
    (by intro kv hkv; simp only [List.mem_singleton] at hkv; subst hkv; decide)

/-- C8 counterexample: the source computes `short` from the raw key's
length, not the humanized key's; a 31-character key that trims and
humanizes to "A" yields `short = false` although both the humanized key
and the value are at most 30 characters, refuting the claimed
equivalence. -/
theorem slack_stats_short_raw_key_cex :
    ((Slack.stats (Slack.make none none) "t" [(longSpacedKey, JsVal.str "v")] true)._attachments.map
        (fun a => a.fields)) = [[⟨"A", "v", false⟩]]
    ∧ (startCase (jsTrim longSpacedKey)).length ≤ 30
    ∧ ("v" : String).length ≤ 30
    ∧ longSpacedKey.length = 31 := by
  refine ⟨rfl, by decide, by decide, by decide⟩

/-- C8 amended: every field produced by the Field-style `stats` has
`short` equal to "the stringified, trimmed value is at most 30 characters
AND the raw key (as passed, untrimmed and unhumanized) is at most 30
characters". -/
theorem stats_short_flag_amended (iu : Bool) (kvs : List (String × JsVal)) (f : SlackField)
    (hf : f ∈ Slack.statsFields iu kvs) :
    ∃ kv, kv ∈ kvs ∧
      f.short = (decide ((jsTrim (jsStringify kv.2)).length ≤ 30) && decide (kv.1.length ≤ 30)) := by
  rw [statsFields_eq] at hf
  obtain ⟨kv, hkv, rfl⟩ := List.mem_map.mp hf
  exact ⟨kv, List.mem_of_mem_filter hkv, rfl⟩

/-- C8 amended witness: the short flag of a concrete produced field. -/
theorem stats_short_flag_amended_witness :
    ∃ kv, kv ∈ [("k", JsVal.str "v")] ∧
      (⟨"K", "v", true⟩ : SlackField).short =
        (decide ((jsTrim (jsStringify kv.2)).length ≤ 30) && decide (kv.1.length ≤ 30)) :=
  stats_short_flag_amended true [("k", JsVal.str "v")] ⟨"K", "v", true⟩ (by decide)

/-- C9 confirmed: Card-style `escapeText` returns empty input as-is and
newline-free text unchanged; every maximal run of N consecutive newlines
becomes N break sequences of three spaces plus a newline with a
non-breaking-space marker before each break after the first (the source's
emitted run equals that formulation), and on "a\n\nb" it produces exactly
two break sequences of which exactly the second is marker-prefixed. -/
theorem teams_escape_text_newline_runs :
    Teams.escapeText "" = ""
    ∧ (∀ s : String, nl ∉ s.data → Teams.escapeText s = s)
    ∧ (∀ (xs ys : List Char) (n : Nat), nl ∉ xs → (∀ c, ys.head? = some c → c ≠ nl) →
        Teams.escAux (xs ++ (List.replicate (n + 1) nl ++ ys)) 0 =
          xs ++ (Teams.claimBreakChars (n + 1) ++ Teams.escAux ys 0))
    ∧ (∀ n : Nat, Teams.emitChars (n + 1) = Teams.claimBreakChars (n + 1))
    ∧ Teams.escapeText "a\n\nb" = "a   \n&nbsp;   \nb" := by
  refine ⟨rfl, ?_, ?_, emitChars_eq_claimBreakChars, by decide⟩
  · intro s hs
    by_cases hd : s.data = []
    · simp [Teams.escapeText, hd]
    · have hesc : Teams.escAux s.data 0 = s.data := by
        have h1 := escAux_noNl_front s.data [] hs
        simpa [Teams.escAux, Teams.emitChars] using h1
      simp [Teams.escapeText, hd, hesc]
  · intro xs ys n hxs hys
    rw [escAux_noNl_front xs _ hxs, escAux_replicate, escAux_flush ys _ hys,
      ← emitChars_eq_claimBreakChars]
    simp

/-- C9 witness: the newline-free and run clauses at concrete inputs. -/
theorem teams_escape_text_newline_runs_witness :
    Teams.escapeText "abc" = "abc"
    ∧ Teams.escAux (['a'] ++ (List.replicate 2 nl ++ ['b'])) 0 =
        ['a'] ++ (Teams.claimBreakChars 2 ++ Teams.escAux ['b'] 0) := by
  constructor
  · exact teams_escape_text_newline_runs.2.1 "abc" (by decide)
  · exact teams_escape_text_newline_runs.2.2.1 ['a'] ['b'] 1 (by decide)
      (by intro c hc; cases hc; decide)

/-- C10 confirmed: the Card-style `error` returns the caller's error
object with its stack reassigned to the original stack with every space
replaced by the non-breaking-space entity, and both the card's body text
and the create-issue button URL are built from that mutated stack. -/
theorem teams_error_stack_mutation (tb : Teams) (pkg : PackageInfo) (now : String)
    (err : JsError) (label title : String) :
    (Teams.error tb pkg now err label title).2 = { err with stack := spacesToNbsp err.stack }
    ∧ (Teams.error tb pkg now err label title).1._text =
        some (Teams.escapeText (spacesToNbsp err.stack))
    ∧ (Teams.error tb pkg now err label title).1._actions =
        tb._actions ++ [Teams.issueAction pkg now err label title]
    ∧ (Teams.issueAction pkg now err label title).targets =
        [⟨"default", Teams.issueUri pkg.bugsUrl now pkg.version
          ("[" ++ (if label != "" then label else err.name) ++ "] ")
          (if title != "" then title else err.message) (spacesToNbsp err.stack)⟩] :=
  ⟨rfl, rfl, rfl, rfl⟩
